import Mathlib

/-!
Shallow embedding of the AquaHub citizen chat state machine
(`src/pages/citizen/CitizenChat.tsx`).

The component keeps its session context in React state hooks
(`chatState`, `selectedProvider`, `reportData`) and mutates it from
`processUserInput`, which also appends bot messages (via `addBotMessage`)
through `setTimeout` callbacks.  We embed one call of `processUserInput`
(with all of its scheduled timers drained, in the order they fire) as a
pure function from the session context and the raw input string to an
ordered list of effects: bot-message appends and state/context writes.

JavaScript string and number primitives used by the component
(`parseInt`, `String.prototype.includes`, `toLowerCase`, `slice`,
`x || 1`) are embedded explicitly below.
-/

set_option maxRecDepth 100000

namespace AquaChat

/-- The `ChatState` union type of `CitizenChat.tsx` (13 string literals). -/
inductive ChatState where
  | welcome
  | main_menu
  | request_location
  | show_providers
  | confirm_order
  | order_confirmed
  | report_type
  | report_location
  | report_duration
  | report_affected
  | report_confirmed
  | prices_location
  | show_prices
  deriving DecidableEq, Repr

/-- One selectable option attached to a bot message (`{ id, label }`). -/
structure MenuOption where
  id : String
  label : String
  deriving DecidableEq, Repr

/-- The fields of `PipaProvider` (`src/types/index.ts`) that the chat state
machine reads.  `location`, `fleetSize`, `certifications` and `phone` are
never read by `CitizenChat.tsx` and are omitted.  `rating` is a TS `number`;
the chat only ever renders it with `toString`, and the modelled catalog
below uses integral ratings, so it is embedded as `Nat`. -/
structure PipaProvider where
  id : String
  name : String
  rating : Nat
  pricePerLiter : Nat
  estimatedArrival : Nat
  available : Bool
  deriving DecidableEq, Repr

/-- The `reportData` record of `CitizenChat.tsx`
(`{ type?: string; duration?: string; affected?: number }`), initially `{}`. -/
structure ReportData where
  type : Option String := none
  duration : Option String := none
  affected : Option Int := none
  deriving DecidableEq, Repr

/-- The mutable session context: the three React state hooks that
`processUserInput` reads and writes. -/
structure Ctx where
  chatState : ChatState
  selectedProvider : Option PipaProvider
  reportData : ReportData
  deriving DecidableEq, Repr

/-- A bot message as appended by `addBotMessage`: its text content and the
options attached to it (empty when the `options` argument is omitted). -/
structure BotMsg where
  content : String
  options : List MenuOption := []
  deriving DecidableEq, Repr

/-- One observable effect of a `processUserInput` call, in the order the
code performs it (synchronous writes first, then timer callbacks in firing
order): a bot-message append or a write to one of the three state hooks. -/
inductive Eff where
  | addBot (m : BotMsg)
  | setState (s : ChatState)
  | setProvider (p : PipaProvider)
  | setReport (r : ReportData)
  deriving DecidableEq, Repr

/-! ### JavaScript primitives -/

/-- ASCII lowercasing extended with the uppercase accented letters that can
occur in the Spanish inputs of this flow; embeds `String.prototype.toLowerCase`
on the relevant alphabet. -/
def jsCharToLower (c : Char) : Char :=
  if c = 'Á' then 'á' else if c = 'É' then 'é' else if c = 'Í' then 'í'
  else if c = 'Ó' then 'ó' else if c = 'Ú' then 'ú' else if c = 'Ñ' then 'ñ'
  else c.toLower

/-- `input.toLowerCase()` on the relevant alphabet. -/
def jsToLower (s : String) : String :=
  String.mk (s.toList.map jsCharToLower)

/-- Whether `sub` occurs as a contiguous subsequence of `l`
(the list form of `String.prototype.includes`). -/
def containsSeq (sub : List Char) : List Char → Bool
  | [] => sub.isEmpty
  | x :: xs => sub.isPrefixOf (x :: xs) || containsSeq sub xs

/-- `s.includes(sub)` for JavaScript strings. -/
def jsIncludes (s : String) (sub : String) : Bool :=
  containsSeq sub.toList s.toList

/-- Value of a decimal digit character. -/
def decDigitsVal (ds : List Char) : Nat :=
  ds.foldl (fun acc c => acc * 10 + (c.toNat - 48)) 0

/-- Value of a hexadecimal digit character. -/
def hexDigitVal (c : Char) : Nat :=
  if c.isDigit then c.toNat - 48
  else if 'a' ≤ c ∧ c ≤ 'f' then c.toNat - 87
  else c.toNat - 55

/-- Whether `c` is an ASCII hexadecimal digit. -/
def isHexDigit (c : Char) : Bool :=
  c.isDigit || ('a' ≤ c && c ≤ 'f') || ('A' ≤ c && c ≤ 'F')

/-- Parse an unsigned JavaScript integer literal prefix: an optional
`0x`/`0X` hexadecimal form, else leading decimal digits; `none` when no
digit is found (the `NaN` result). -/
def jsParseNat : List Char → Option Nat
  | '0' :: 'x' :: rest =>
      let ds := rest.takeWhile isHexDigit
      if ds.isEmpty then none
      else some (ds.foldl (fun acc c => acc * 16 + hexDigitVal c) 0)
  | '0' :: 'X' :: rest =>
      let ds := rest.takeWhile isHexDigit
      if ds.isEmpty then none
      else some (ds.foldl (fun acc c => acc * 16 + hexDigitVal c) 0)
  | cs =>
      let ds := cs.takeWhile Char.isDigit
      if ds.isEmpty then none else some (decDigitsVal ds)

/-- `parseInt(s)` (radix auto-detected): skip ASCII whitespace, read an
optional sign, then a decimal or `0x` hexadecimal digit run; `none` is the
`NaN` result. -/
def jsParseInt (s : String) : Option Int :=
  let cs := s.toList.dropWhile fun c =>
    c == ' ' || c == '\t' || c == '\n' || c == '\r' || c == '\x0b' || c == '\x0c'
  match cs with
  | '-' :: rest => (jsParseNat rest).map fun v => -(v : Int)
  | '+' :: rest => (jsParseNat rest).map fun v => (v : Int)
  | _ => (jsParseNat cs).map fun v => (v : Int)

/-- `parseInt(s) || d`: the default is taken when the parse is `NaN` or the
falsy number `0`. -/
def jsOrInt (v : Option Int) (d : Int) : Int :=
  match v with
  | none => d
  | some 0 => d
  | some n => n

/-- `s.slice(-n)`: the last `n` characters (the whole string when shorter). -/
def jsSliceLast (n : Nat) (s : String) : String :=
  String.mk (s.toList.drop (s.toList.length - n))

/-- `selectedProvider?.f` interpolated into a template literal: field access
through the optional chain, rendering `undefined` when the provider is null. -/
def optChain (p : Option PipaProvider) (f : PipaProvider → String) : String :=
  match p with
  | some q => f q
  | none => "undefined"

/-- An optional string field interpolated into a template literal
(`undefined` when absent). -/
def optStr : Option String → String
  | some s => s
  | none => "undefined"

/-! ### The static menus of `CitizenChat.tsx` -/

/-- `mainMenuOptions`. -/
def mainMenuOptions : List MenuOption :=
  [⟨"1", "💧 Pedir agua (pipa)"⟩,
   ⟨"2", "⚠️ Reportar un problema"⟩,
   ⟨"3", "💰 Ver precios en mi zona"⟩,
   ⟨"4", "📦 Mis pedidos"⟩]

/-- `reportTypes`. -/
def reportTypes : List MenuOption :=
  [⟨"1", "💧 Fuga de agua"⟩,
   ⟨"2", "🚱 Sin agua en mi colonia"⟩,
   ⟨"3", "⚠️ Agua contaminada"⟩,
   ⟨"4", "🔧 Daño a infraestructura"⟩]

/-- `durationOptions`. -/
def durationOptions : List MenuOption :=
  [⟨"1", "Hoy"⟩, ⟨"2", "1-3 días"⟩, ⟨"3", "Más de 3 días"⟩]

/-! ### Generated identifiers -/

/-- The order id built at confirmation:
``AH-`` followed by `Date.now().toString().slice(-6)`. -/
def orderId (now : Nat) : String :=
  "AH-" ++ jsSliceLast 6 (toString now)

/-- The report id built at report completion:
``AH-2026-`` followed by `Date.now().toString().slice(-4)`. -/
def reportId (now : Nat) : String :=
  "AH-2026-" ++ jsSliceLast 4 (toString now)

/-! ### Main-menu branch conditions

The four guards of the `main_menu` switch case, in source order; each is
tried only when the previous ones failed. -/

/-- Guard of the request-water branch:
`input === '1' || lowerInput.includes('pedir') || lowerInput.includes('agua')`. -/
def mmBranch1 (input : String) : Bool :=
  input == "1" || jsIncludes (jsToLower input) "pedir" || jsIncludes (jsToLower input) "agua"

/-- Guard of the report branch:
`input === '2' || lowerInput.includes('reportar') || lowerInput.includes('problema')`. -/
def mmBranch2 (input : String) : Bool :=
  input == "2" || jsIncludes (jsToLower input) "reportar" || jsIncludes (jsToLower input) "problema"

/-- Guard of the prices branch: `input === '3' || lowerInput.includes('precios')`. -/
def mmBranch3 (input : String) : Bool :=
  input == "3" || jsIncludes (jsToLower input) "precios"

/-- Guard of the orders branch: `input === '4' || lowerInput.includes('pedidos')`. -/
def mmBranch4 (input : String) : Bool :=
  input == "4" || jsIncludes (jsToLower input) "pedidos"

/-- Guard of the confirm branch of `confirm_order`:
`input === 'confirm' || lowerInput.includes('confirmar') || lowerInput.includes('sí')`. -/
def confirmGuard (input : String) : Bool :=
  input == "confirm" || jsIncludes (jsToLower input) "confirmar" || jsIncludes (jsToLower input) "sí"

/-! ### Bot messages

Each named message below is one `addBotMessage` call site of
`CitizenChat.tsx`, with the template literal written out as concatenation. -/

/-- Location prompt of the request-water branch. -/
def locationPromptMsg : BotMsg :=
  ⟨"📍 Comparte tu ubicación para encontrar pipas cerca de ti.\n\nPuedes escribir tu colonia o dirección.", []⟩

/-- Report-type menu of the report branch. -/
def reportTypeMenuMsg : BotMsg :=
  ⟨"¿Qué tipo de problema quieres reportar?", reportTypes⟩

/-- Zone prompt of the prices branch. -/
def pricesPromptMsg : BotMsg :=
  ⟨"📍 ¿En qué zona quieres ver los precios?\n\nEscribe tu colonia o dirección.", []⟩

/-- No-active-orders message of the orders branch (two options). -/
def ordersMenuMsg : BotMsg :=
  ⟨"📦 No tienes pedidos activos en este momento.\n\n¿Te gustaría pedir agua?",
   [⟨"yes", "Sí, pedir agua"⟩, ⟨"no", "Volver al menú"⟩]⟩

/-- Main-menu re-prompt on an unrecognized main-menu input. -/
def mainMenuRepromptMsg : BotMsg :=
  ⟨"No entendí tu mensaje. ¿En qué te puedo ayudar?", mainMenuOptions⟩

/-- Location echo emitted by `request_location` / `prices_location`. -/
def locationReceivedMsg (input : String) : BotMsg :=
  ⟨"📍 Ubicación recibida: " ++ input ++ "\n\nBuscando pipas disponibles...", []⟩

/-- One numbered provider line of the `showProviders` listing. -/
def providerLine (idx : Nat) (p : PipaProvider) : String :=
  toString (idx + 1) ++ "️⃣ " ++ p.name ++ "\n" ++
  "   💰 $" ++ toString p.pricePerLiter ++ "/10,000L ⭐" ++ toString p.rating ++ "\n" ++
  "   ⏱️ Llega en ~" ++ toString p.estimatedArrival ++ " min\n\n"

/-- The full `showProviders` listing over the available-filtered snapshot. -/
def providersListMsg (avail : List PipaProvider) : BotMsg :=
  ⟨"Encontré " ++ toString avail.length ++ " pipas disponibles en tu zona:\n\n" ++
   String.join (avail.enum.map fun ip => providerLine ip.1 ip.2) ++
   "💳 Tienes un subsidio disponible de $200\n\n¿Cuál prefieres? Responde con el número.", []⟩

/-- Selection recap emitted after a valid provider choice (confirm/cancel options). -/
def providerSelectedMsg (p : PipaProvider) : BotMsg :=
  ⟨"Has seleccionado:\n\n🚛 " ++ p.name ++ "\n💰 $" ++ toString p.pricePerLiter ++
   "/10,000L\n⏱️ Llega en ~" ++ toString p.estimatedArrival ++ " min\n\n¿Confirmas el pedido?",
   [⟨"confirm", "✅ Confirmar pedido"⟩, ⟨"cancel", "❌ Cancelar"⟩]⟩

/-- Order confirmation summary, interpolating the generated order id and the
optional-chained fields of `selectedProvider`. -/
def orderConfirmedMsg (now : Nat) (sel : Option PipaProvider) : BotMsg :=
  ⟨"✅ ¡Pedido confirmado!\n\n📋 Número de pedido: #" ++ orderId now ++
   "\n🚛 Proveedor: " ++ optChain sel (fun q => q.name) ++
   "\n💰 Total: $" ++ optChain sel (fun q => toString q.pricePerLiter) ++
   "\n⏱️ Tiempo estimado: ~" ++ optChain sel (fun q => toString q.estimatedArrival) ++
   " min\n\nTe notificaremos cuando el pipa esté en camino. 🚚", []⟩

/-- Follow-up after an order confirmation. -/
def anythingElseMsg : BotMsg :=
  ⟨"¿Hay algo más en lo que te pueda ayudar?", mainMenuOptions⟩

/-- Cancellation message of `confirm_order`. -/
def orderCancelledMsg : BotMsg :=
  ⟨"Pedido cancelado. ¿En qué más te puedo ayudar?", mainMenuOptions⟩

/-- Problem-location prompt of the report flow. -/
def reportLocationPromptMsg : BotMsg :=
  ⟨"📍 ¿Dónde está el problema?\n\nEscribe la dirección o colonia.", []⟩

/-- Duration menu of the report flow. -/
def durationMenuMsg : BotMsg :=
  ⟨"¿Desde cuándo tienen este problema?", durationOptions⟩

/-- Affected-households prompt of the report flow. -/
def affectedPromptMsg : BotMsg :=
  ⟨"¿Cuántas viviendas están afectadas aproximadamente?", []⟩

/-- Report summary, interpolating the generated report id, the report data
captured in earlier turns and the affected count of this turn. -/
def reportRegisteredMsg (now : Nat) (rep : ReportData) (affected : Int) : BotMsg :=
  ⟨"✅ Reporte registrado (#" ++ reportId now ++ ")\n\n📋 " ++ optStr rep.type ++
   "\n📍 Ubicación registrada\n⏱️ Duración: " ++ optStr rep.duration ++
   "\n🏠 ~" ++ toString affected ++
   " viviendas afectadas\n\nTu reporte fue enviado a SACMEX. Te notificaremos cuando haya una actualización.", []⟩

/-- Follow-up after a report confirmation (two options). -/
def needWaterMsg : BotMsg :=
  ⟨"💧 Mientras tanto, ¿necesitas pedir agua?",
   [⟨"1", "Sí, ver pipas disponibles"⟩, ⟨"menu", "Volver al menú"⟩]⟩

/-- Fallback prompt of the `default` switch case. -/
def helpPromptMsg : BotMsg :=
  ⟨"¿En qué te puedo ayudar?", mainMenuOptions⟩

/-- First message of the initial-greeting effect run on mount. -/
def greetingMsg : BotMsg :=
  ⟨"¡Hola! 👋 Soy AquaHub, tu asistente de servicios de agua.", []⟩

/-- Second message of the initial-greeting effect (main menu attached). -/
def greetingMenuMsg : BotMsg :=
  ⟨"¿En qué te puedo ayudar hoy?", mainMenuOptions⟩

/-! ### The transition function -/

/-- The `showProviders` helper: takes a fresh `available`-filtered snapshot
of the catalog, emits the listing and moves to `show_providers`. -/
def showProvidersEffects (providers : List PipaProvider) : List Eff :=
  let availableProviders := providers.filter fun p => p.available
  [.addBot (providersListMsg availableProviders), .setState .show_providers]

/-- One call of `processUserInput` with its scheduled timers drained, as the
ordered list of effects it performs.  `providers` is the provider catalog
(`mockProviders`) as read at this call; `now` is `Date.now()`. -/
def processEffects (providers : List PipaProvider) (now : Nat) (ctx : Ctx) (input : String) :
    List Eff :=
  match ctx.chatState with
  | .main_menu =>
      if mmBranch1 input then
        [.addBot locationPromptMsg, .setState .request_location]
      else if mmBranch2 input then
        [.addBot reportTypeMenuMsg, .setState .report_type]
      else if mmBranch3 input then
        [.addBot pricesPromptMsg, .setState .prices_location]
      else if mmBranch4 input then
        [.addBot ordersMenuMsg]
      else
        [.addBot mainMenuRepromptMsg]
  | .request_location | .prices_location =>
      .addBot (locationReceivedMsg input) :: showProvidersEffects providers
  | .show_providers =>
      match jsParseInt input with
      | some n =>
          if h : 1 ≤ n ∧ n ≤ ((providers.filter fun p => p.available).length : Int) then
            let provider := (providers.filter fun p => p.available).get
              ⟨(n - 1).toNat, by omega⟩
            [.setProvider provider, .addBot (providerSelectedMsg provider),
             .setState .confirm_order]
          else []
      | none => []
  | .confirm_order =>
      if confirmGuard input then
        [.addBot (orderConfirmedMsg now ctx.selectedProvider),
         .setState .order_confirmed,
         .addBot anythingElseMsg,
         .setState .main_menu]
      else
        [.addBot orderCancelledMsg, .setState .main_menu]
  | .report_type =>
      match jsParseInt input with
      | some n =>
          if h : 1 ≤ n ∧ n ≤ 4 then
            let opt := reportTypes.get
              ⟨(n - 1).toNat, by have hl : reportTypes.length = 4 := rfl; omega⟩
            [.setReport { ctx.reportData with type := some opt.label },
             .addBot reportLocationPromptMsg, .setState .report_location]
          else []
      | none => []
  | .report_location =>
      [.addBot durationMenuMsg, .setState .report_duration]
  | .report_duration =>
      match jsParseInt input with
      | some n =>
          if h : 1 ≤ n ∧ n ≤ 3 then
            let opt := durationOptions.get
              ⟨(n - 1).toNat, by have hl : durationOptions.length = 3 := rfl; omega⟩
            [.setReport { ctx.reportData with duration := some opt.label },
             .addBot affectedPromptMsg, .setState .report_affected]
          else []
      | none => []
  | .report_affected =>
      let affected := jsOrInt (jsParseInt input) 1
      [.setReport { ctx.reportData with affected := some affected },
       .addBot (reportRegisteredMsg now ctx.reportData affected),
       .setState .report_confirmed,
       .addBot needWaterMsg,
       .setState .main_menu]
  | .welcome | .order_confirmed | .report_confirmed | .show_prices =>
      [.addBot helpPromptMsg, .setState .main_menu]

/-- Variant of `processEffects` that returns `none` exactly where the
TypeScript would dereference an out-of-bounds (`undefined`) array element —
the only places `processUserInput` could raise at run time.  Each guarded
index access is performed with `List.get?` and failure is propagated. -/
def processEffectsChecked (providers : List PipaProvider) (now : Nat) (ctx : Ctx)
    (input : String) : Option (List Eff) :=
  match ctx.chatState with
  | .show_providers =>
      match jsParseInt input with
      | some n =>
          if 1 ≤ n ∧ n ≤ ((providers.filter fun p => p.available).length : Int) then
            match (providers.filter fun p => p.available).get? (n - 1).toNat with
            | some provider =>
                some [.setProvider provider, .addBot (providerSelectedMsg provider),
                      .setState .confirm_order]
            | none => none
          else some []
      | none => some []
  | .report_type =>
      match jsParseInt input with
      | some n =>
          if 1 ≤ n ∧ n ≤ 4 then
            match reportTypes.get? (n - 1).toNat with
            | some opt =>
                some [.setReport { ctx.reportData with type := some opt.label },
                      .addBot reportLocationPromptMsg, .setState .report_location]
            | none => none
          else some []
      | none => some []
  | .report_duration =>
      match jsParseInt input with
      | some n =>
          if 1 ≤ n ∧ n ≤ 3 then
            match durationOptions.get? (n - 1).toNat with
            | some opt =>
                some [.setReport { ctx.reportData with duration := some opt.label },
                      .addBot affectedPromptMsg, .setState .report_affected]
            | none => none
          else some []
      | none => some []
  | _ => some (processEffects providers now ctx input)

/-! ### Running effects -/

/-- Apply one effect to the session context (bot messages only touch the
transcript, not the context). -/
def applyEff (ctx : Ctx) : Eff → Ctx
  | .addBot _ => ctx
  | .setState s => { ctx with chatState := s }
  | .setProvider p => { ctx with selectedProvider := some p }
  | .setReport r => { ctx with reportData := r }

/-- Fold a list of effects over the context. -/
def runEffs (ctx : Ctx) (effs : List Eff) : Ctx :=
  effs.foldl applyEff ctx

/-- The bot messages appended by a list of effects, in order. -/
def botMsgs (effs : List Eff) : List BotMsg :=
  effs.filterMap fun e => match e with | .addBot m => some m | _ => none

/-- The sequence of `setChatState` writes in a list of effects. -/
def stateWrites (effs : List Eff) : List ChatState :=
  effs.filterMap fun e => match e with | .setState s => some s | _ => none

/-- Whether a list of effects writes `selectedProvider`. -/
def writesProvider (effs : List Eff) : Bool :=
  effs.any fun e => match e with | .setProvider _ => true | _ => false

/-- Whether a list of effects writes `reportData`. -/
def writesReport (effs : List Eff) : Bool :=
  effs.any fun e => match e with | .setReport _ => true | _ => false

/-- The session context after one fully drained `processUserInput` call. -/
def stepCtx (providers : List PipaProvider) (now : Nat) (ctx : Ctx) (input : String) : Ctx :=
  runEffs ctx (processEffects providers now ctx input)

/-- The session context after a sequence of user inputs, each processed to
quiescence before the next. -/
def runInputs (providers : List PipaProvider) (now : Nat) (ctx : Ctx)
    (inputs : List String) : Ctx :=
  inputs.foldl (stepCtx providers now) ctx

/-- All bot messages appended while a sequence of user inputs is processed. -/
def runMsgs (providers : List PipaProvider) (now : Nat) : Ctx → List String → List BotMsg
  | _, [] => []
  | ctx, i :: is =>
      botMsgs (processEffects providers now ctx i) ++
      runMsgs providers now (stepCtx providers now ctx i) is

/-- The context a session is created with: state `welcome`, no selected
provider, empty report record. -/
def initialCtx : Ctx :=
  ⟨.welcome, none, {}⟩

/-- The mount-time greeting effect of the component (the initial `useEffect`):
two bot messages, then the transition `welcome → main_menu`, all before the
first user input is processed. -/
def sessionInitEffects : List Eff :=
  [.addBot greetingMsg, .addBot greetingMenuMsg, .setState .main_menu]

/-- The session context once the greeting effect has drained. -/
def sessionStartCtx : Ctx :=
  runEffs initialCtx sessionInitEffects

/-- Whether `input` is recognized in state `s`: it satisfies some guard of
the `switch` case for `s`.  States whose case accepts every input (free-text
captures, `confirm_order` with its cancel fallback, and the `default`
states) recognize everything. -/
def recognizedIn (providers : List PipaProvider) (s : ChatState) (input : String) : Bool :=
  match s with
  | .main_menu => mmBranch1 input || mmBranch2 input || mmBranch3 input || mmBranch4 input
  | .show_providers =>
      match jsParseInt input with
      | some n => decide (1 ≤ n ∧ n ≤ ((providers.filter fun p => p.available).length : Int))
      | none => false
  | .report_type =>
      match jsParseInt input with
      | some n => decide (1 ≤ n ∧ n ≤ 4)
      | none => false
  | .report_duration =>
      match jsParseInt input with
      | some n => decide (1 ≤ n ∧ n ≤ 3)
      | none => false
  | _ => true

/-- Modelled from the spec: the external provider catalog (`mockProviders`
from `@/data/mockData`, which is not part of the repository snapshot; the
spec lists its shape in §3 and treats it as an external read-only catalog).
A concrete catalog with exactly 3 available providers and 1 unavailable one,
used to instantiate the scenario claims. -/
def threeProviders : List PipaProvider :=
  [⟨"p1", "Pipas del Valle", 5, 850, 25, true⟩,
   ⟨"p2", "Aqua Express", 4, 920, 40, true⟩,
   ⟨"p3", "Hidro Norte", 4, 780, 35, true⟩,
   ⟨"p4", "Pipas CDMX", 3, 900, 50, false⟩]

/-- The first available provider of the modelled catalog. -/
def provider1 : PipaProvider :=
  ⟨"p1", "Pipas del Valle", 5, 850, 25, true⟩

/-! ### Claim theorems -/

/-- C1 counterexample: in `show_providers` with a catalog of 3 available
providers, the input `"5"` is unrecognized and leaves the state (indeed the
whole session context) at `show_providers`, but the bot emits no utterance
at all — the turn is silent, contradicting the claimed re-prompt. -/
theorem c1_counterexample :
    (threeProviders.filter fun p => p.available).length = 3 ∧
    recognizedIn threeProviders ChatState.show_providers "5" = false ∧
    stepCtx threeProviders 0 ⟨ChatState.show_providers, none, {}⟩ "5"
      = ⟨ChatState.show_providers, none, {}⟩ ∧
    botMsgs (processEffects threeProviders 0 ⟨ChatState.show_providers, none, {}⟩ "5") = [] :=
  ⟨rfl, rfl, rfl, rfl⟩

/-- C2 counterexample: running a full report flow and then an order flow from
a fresh session reaches a context in which the selected provider and the
report record are simultaneously populated — neither is ever cleared. -/
theorem c2_counterexample :
    (runInputs threeProviders 0 initialCtx
        ["hola", "2", "1", "Centro", "1", "5", "1", "Centro", "1"]).selectedProvider.isSome
      = true ∧
    (runInputs threeProviders 0 initialCtx
        ["hola", "2", "1", "Centro", "1", "5", "1", "Centro", "1"]).reportData.type.isSome
      = true :=
  ⟨rfl, rfl⟩

/-- C3: a fresh session (initial state `welcome`, auto-advanced to
`main_menu` by the mount-time greeting effect) processing
`["1", "Iztapalapa", "1", "confirm"]` completes the order flow: some bot
emission contains the generated order id, the selected provider name and its
price, and the session ends back in `main_menu`. -/
theorem c3_full_order_flow :
    (runInputs threeProviders 123456789 sessionStartCtx
        ["1", "Iztapalapa", "1", "confirm"]).chatState = ChatState.main_menu ∧
    ((runMsgs threeProviders 123456789 sessionStartCtx
        ["1", "Iztapalapa", "1", "confirm"]).any fun m =>
      jsIncludes m.content (orderId 123456789) &&
      jsIncludes m.content provider1.name &&
      jsIncludes m.content ("Total: $" ++ toString provider1.pricePerLiter)) = true :=
  ⟨rfl, rfl⟩

/-- C4 counterexample: cancelling in `confirm_order` (input `"no"`) does move
the state to `main_menu`, but `selectedProvider` is not set back to null — it
still holds the previously chosen provider. -/
theorem c4_counterexample :
    stepCtx threeProviders 0 ⟨ChatState.confirm_order, some provider1, {}⟩ "no"
      = ⟨ChatState.main_menu, some provider1, {}⟩ ∧
    (stepCtx threeProviders 0
        ⟨ChatState.confirm_order, some provider1, {}⟩ "no").selectedProvider.isSome = true :=
  ⟨rfl, rfl⟩

/-- C8 counterexample: in `main_menu`, input `"4"` emits the no-active-orders
message but performs no state write at all: the session context is unchanged
and remains in `main_menu` — there is no distinct orders state. -/
theorem c8_counterexample :
    stepCtx threeProviders 0 ⟨ChatState.main_menu, none, {}⟩ "4"
      = ⟨ChatState.main_menu, none, {}⟩ ∧
    stateWrites (processEffects threeProviders 0 ⟨ChatState.main_menu, none, {}⟩ "4") = [] ∧
    botMsgs (processEffects threeProviders 0 ⟨ChatState.main_menu, none, {}⟩ "4")
      = [ordersMenuMsg] :=
  ⟨rfl, rfl, rfl⟩

/-- C1 (amended): an unrecognized input never changes the session context —
the state stays exactly `S` — and a bot re-prompt is emitted exactly when
`S` is `main_menu`; in `show_providers`, `report_type` and `report_duration`
the unrecognized turn is silent. -/
theorem c1_unrecognized_keeps_state :
    ∀ (providers : List PipaProvider) (now : Nat) (ctx : Ctx) (input : String),
    recognizedIn providers ctx.chatState input = false →
    stepCtx providers now ctx input = ctx ∧
    (botMsgs (processEffects providers now ctx input) = [] ↔
      ctx.chatState ≠ ChatState.main_menu) := by
  rintro providers now ⟨st, sel, rep⟩ input h
  cases st <;> simp only [recognizedIn] at h <;> try exact Bool.noConfusion h
  · -- main_menu
    simp only [Bool.or_eq_false_iff] at h
    obtain ⟨⟨⟨h1, h2⟩, h3⟩, h4⟩ := h
    refine ⟨?_, ?_⟩ <;>
      simp [stepCtx, processEffects, h1, h2, h3, h4, runEffs, applyEff, botMsgs]
  · -- show_providers
    rcases hp : jsParseInt input with _ | n <;>
      simp only [hp, decide_eq_false_iff_not] at h
    · refine ⟨?_, ?_⟩ <;> simp [stepCtx, processEffects, hp, runEffs, botMsgs]
    · refine ⟨?_, ?_⟩ <;> simp [stepCtx, processEffects, hp, h, runEffs, botMsgs]
  · -- report_type
    rcases hp : jsParseInt input with _ | n <;>
      simp only [hp, decide_eq_false_iff_not] at h
    · refine ⟨?_, ?_⟩ <;> simp [stepCtx, processEffects, hp, runEffs, botMsgs]
    · refine ⟨?_, ?_⟩ <;> simp [stepCtx, processEffects, hp, h, runEffs, botMsgs]
  · -- report_duration
    rcases hp : jsParseInt input with _ | n <;>
      simp only [hp, decide_eq_false_iff_not] at h
    · refine ⟨?_, ?_⟩ <;> simp [stepCtx, processEffects, hp, runEffs, botMsgs]
    · refine ⟨?_, ?_⟩ <;> simp [stepCtx, processEffects, hp, h, runEffs, botMsgs]

/-- C1 witness: the theorem applied at `main_menu` with the unrecognized
input `"zzz"`. -/
theorem c1_unrecognized_keeps_state_witness :
    stepCtx threeProviders 0 ⟨ChatState.main_menu, none, {}⟩ "zzz"
      = ⟨ChatState.main_menu, none, {}⟩ ∧
    (botMsgs (processEffects threeProviders 0 ⟨ChatState.main_menu, none, {}⟩ "zzz") = [] ↔
      (⟨ChatState.main_menu, none, {}⟩ : Ctx).chatState ≠ ChatState.main_menu) :=
  c1_unrecognized_keeps_state threeProviders 0 ⟨ChatState.main_menu, none, {}⟩ "zzz" rfl

/-- C2 (amended): no single turn writes both `selectedProvider` and
`reportData` — each transition populates at most one task sub-flow.  (The
claim as stated fails because neither field is ever cleared, so after one
sub-flow completes and the other starts, both are non-null; see the
counterexample.) -/
theorem c2_at_most_one_subflow_write :
    ∀ (providers : List PipaProvider) (now : Nat) (ctx : Ctx) (input : String),
    (writesProvider (processEffects providers now ctx input) &&
     writesReport (processEffects providers now ctx input)) = false := by
  rintro providers now ⟨st, sel, rep⟩ input
  cases st <;> simp only [processEffects] <;> (repeat' split) <;> rfl

/-- C4 (amended): every input in `confirm_order` ends the sub-flow in
`main_menu`; a non-confirming input transitions directly there (single state
write); but `selectedProvider` is retained unchanged — it is not set back to
null, neither on cancel nor on confirm. -/
theorem c4_confirm_order_exit_keeps_provider :
    ∀ (providers : List PipaProvider) (now : Nat) (ctx : Ctx) (input : String),
    ctx.chatState = ChatState.confirm_order →
    (confirmGuard input = false →
      stateWrites (processEffects providers now ctx input) = [ChatState.main_menu]) ∧
    (stepCtx providers now ctx input).chatState = ChatState.main_menu ∧
    (stepCtx providers now ctx input).selectedProvider = ctx.selectedProvider := by
  rintro providers now ⟨st, sel, rep⟩ input h
  obtain rfl : st = ChatState.confirm_order := h
  refine ⟨fun hc => ?_, ?_, ?_⟩
  · simp [processEffects, hc, stateWrites]
  · by_cases hc : confirmGuard input <;>
      simp [stepCtx, processEffects, hc, runEffs, applyEff]
  · by_cases hc : confirmGuard input <;>
      simp [stepCtx, processEffects, hc, runEffs, applyEff]

/-- C4 witness: the theorem applied in `confirm_order` with a selected
provider and the cancelling input `"no"`. -/
theorem c4_confirm_order_exit_keeps_provider_witness :
    stateWrites (processEffects threeProviders 0
        ⟨ChatState.confirm_order, some provider1, {}⟩ "no") = [ChatState.main_menu] ∧
    (stepCtx threeProviders 0
        ⟨ChatState.confirm_order, some provider1, {}⟩ "no").chatState = ChatState.main_menu ∧
    (stepCtx threeProviders 0
        ⟨ChatState.confirm_order, some provider1, {}⟩ "no").selectedProvider = some provider1 :=
  ⟨(c4_confirm_order_exit_keeps_provider threeProviders 0
      ⟨ChatState.confirm_order, some provider1, {}⟩ "no" rfl).1 rfl,
   (c4_confirm_order_exit_keeps_provider threeProviders 0
      ⟨ChatState.confirm_order, some provider1, {}⟩ "no" rfl).2.1,
   (c4_confirm_order_exit_keeps_provider threeProviders 0
      ⟨ChatState.confirm_order, some provider1, {}⟩ "no" rfl).2.2⟩

/-- C5: in `report_affected`, a non-numeric input (one whose `parseInt` is
`NaN`) is not rejected: the affected count defaults to 1, the report is
finalized (two bot emissions, state written to `report_confirmed` and then
`main_menu`), and the session ends the turn in `main_menu`. -/
theorem c5_nonnumeric_affected_defaults :
    ∀ (providers : List PipaProvider) (now : Nat) (ctx : Ctx) (input : String),
    ctx.chatState = ChatState.report_affected →
    jsParseInt input = none →
    (stepCtx providers now ctx input).reportData.affected = some 1 ∧
    (stepCtx providers now ctx input).chatState = ChatState.main_menu ∧
    stateWrites (processEffects providers now ctx input)
      = [ChatState.report_confirmed, ChatState.main_menu] ∧
    (botMsgs (processEffects providers now ctx input)).length = 2 := by
  rintro providers now ⟨st, sel, rep⟩ input h hp
  obtain rfl : st = ChatState.report_affected := h
  refine ⟨?_, ?_, ?_, ?_⟩ <;>
    simp [stepCtx, processEffects, hp, jsOrInt, runEffs, applyEff, stateWrites, botMsgs]

/-- C5 witness: the theorem applied in `report_affected` (with the earlier
report fields captured) at the non-numeric input `"abc"`. -/
theorem c5_nonnumeric_affected_defaults_witness :
    (stepCtx threeProviders 77 ⟨ChatState.report_affected, none,
        ⟨some "💧 Fuga de agua", some "Hoy", none⟩⟩ "abc").reportData.affected = some 1 ∧
    (stepCtx threeProviders 77 ⟨ChatState.report_affected, none,
        ⟨some "💧 Fuga de agua", some "Hoy", none⟩⟩ "abc").chatState = ChatState.main_menu ∧
    stateWrites (processEffects threeProviders 77 ⟨ChatState.report_affected, none,
        ⟨some "💧 Fuga de agua", some "Hoy", none⟩⟩ "abc")
      = [ChatState.report_confirmed, ChatState.main_menu] ∧
    (botMsgs (processEffects threeProviders 77 ⟨ChatState.report_affected, none,
        ⟨some "💧 Fuga de agua", some "Hoy", none⟩⟩ "abc")).length = 2 :=
  c5_nonnumeric_affected_defaults threeProviders 77
    ⟨ChatState.report_affected, none, ⟨some "💧 Fuga de agua", some "Hoy", none⟩⟩ "abc" rfl rfl

/-- C6: in `show_providers`, a numeric input parsing to `n` with
`1 ≤ n ≤ #available` selects the `n`-th element of the available-filtered
snapshot taken at selection time (the catalog is an argument of the
selection step, so the index is validated against that fresh snapshot, not
a cached listing) and advances to `confirm_order`; an out-of-range or
non-numeric input leaves the session context completely unchanged. -/
theorem c6_provider_selection_fresh_snapshot :
    ∀ (providers : List PipaProvider) (now : Nat) (ctx : Ctx) (input : String),
    ctx.chatState = ChatState.show_providers →
    (∀ n : Int, jsParseInt input = some n → 1 ≤ n →
        n ≤ (((providers.filter fun p => p.available).length : Int)) →
        (stepCtx providers now ctx input).chatState = ChatState.confirm_order ∧
        (stepCtx providers now ctx input).selectedProvider
          = (providers.filter fun p => p.available).get? (n - 1).toNat) ∧
    (recognizedIn providers ChatState.show_providers input = false →
        stepCtx providers now ctx input = ctx) := by
  rintro providers now ⟨st, sel, rep⟩ input h
  obtain rfl : st = ChatState.show_providers := h
  constructor
  · intro n hp h1 h2
    have hb : 1 ≤ n ∧ n ≤ (((providers.filter fun p => p.available).length : Int)) := ⟨h1, h2⟩
    have hidx : (n - 1).toNat < (providers.filter fun p => p.available).length := by omega
    simp only [stepCtx, processEffects, hp]
    rw [dif_pos hb]
    exact ⟨rfl, by simp [runEffs, applyEff, List.get?_eq_get hidx]⟩
  · intro hr
    rcases hp : jsParseInt input with _ | n
    · simp [stepCtx, processEffects, hp, runEffs]
    · simp only [recognizedIn, hp, decide_eq_false_iff_not] at hr
      simp only [stepCtx, processEffects, hp]
      rw [dif_neg hr]
      rfl

/-- C6 witness: the theorem applied with the modelled catalog (3 available
providers) at input `"2"`, selecting the second available provider. -/
theorem c6_provider_selection_fresh_snapshot_witness :
    (stepCtx threeProviders 0 ⟨ChatState.show_providers, none, {}⟩ "2").chatState
      = ChatState.confirm_order ∧
    (stepCtx threeProviders 0 ⟨ChatState.show_providers, none, {}⟩ "2").selectedProvider
      = (threeProviders.filter fun p => p.available).get? ((2 : Int) - 1).toNat :=
  (c6_provider_selection_fresh_snapshot threeProviders 0
      ⟨ChatState.show_providers, none, {}⟩ "2" rfl).1 2 rfl (by decide) (by decide)

/-- C7: in `main_menu`, an input matching the request-water guard (`"1"` or
text containing "pedir"/"agua") moves to `request_location` and emits the
location prompt; an input missing that guard but matching the report guard
(`"2"` or text containing "reportar"/"problema") moves to `report_type` and
emits the 4-option report-type menu; the scenario inputs `"1"`, `"2"` and
`"reportar un problema"` satisfy the corresponding guards. -/
theorem c7_main_menu_routing :
    ∀ (providers : List PipaProvider) (now : Nat) (ctx : Ctx) (input : String),
    ctx.chatState = ChatState.main_menu →
    (mmBranch1 input = true →
        (stepCtx providers now ctx input).chatState = ChatState.request_location ∧
        botMsgs (processEffects providers now ctx input) = [locationPromptMsg]) ∧
    (mmBranch1 input = false → mmBranch2 input = true →
        (stepCtx providers now ctx input).chatState = ChatState.report_type ∧
        botMsgs (processEffects providers now ctx input) = [reportTypeMenuMsg] ∧
        reportTypeMenuMsg.options.length = 4) ∧
    mmBranch1 "1" = true ∧ mmBranch2 "2" = true ∧
    mmBranch2 "reportar un problema" = true ∧ mmBranch1 "reportar un problema" = false := by
  rintro providers now ⟨st, sel, rep⟩ input h
  obtain rfl : st = ChatState.main_menu := h
  refine ⟨fun h1 => ?_, fun h1 h2 => ?_, rfl, rfl, rfl, rfl⟩
  · exact ⟨by simp [stepCtx, processEffects, h1, runEffs, applyEff],
      by simp [processEffects, h1, botMsgs]⟩
  · exact ⟨by simp [stepCtx, processEffects, h1, h2, runEffs, applyEff],
      by simp [processEffects, h1, h2, botMsgs], rfl⟩

/-- C7 witness: the theorem applied at the scenario inputs `"1"` and
`"reportar un problema"`. -/
theorem c7_main_menu_routing_witness :
    ((stepCtx threeProviders 0 ⟨ChatState.main_menu, none, {}⟩ "1").chatState
        = ChatState.request_location ∧
      botMsgs (processEffects threeProviders 0 ⟨ChatState.main_menu, none, {}⟩ "1")
        = [locationPromptMsg]) ∧
    ((stepCtx threeProviders 0
          ⟨ChatState.main_menu, none, {}⟩ "reportar un problema").chatState
        = ChatState.report_type ∧
      botMsgs (processEffects threeProviders 0
          ⟨ChatState.main_menu, none, {}⟩ "reportar un problema")
        = [reportTypeMenuMsg] ∧
      reportTypeMenuMsg.options.length = 4) :=
  ⟨(c7_main_menu_routing threeProviders 0
      ⟨ChatState.main_menu, none, {}⟩ "1" rfl).1 rfl,
   (c7_main_menu_routing threeProviders 0
      ⟨ChatState.main_menu, none, {}⟩ "reportar un problema" rfl).2.1 rfl rfl⟩

/-- C8 (amended): in `main_menu`, an input reaching the orders guard (`"4"`
or text containing "pedidos") emits the no-active-orders message with its two
options but performs no state transition: the session context is unchanged
and remains in `main_menu` — the state machine has no distinct orders-menu
state. -/
theorem c8_orders_branch_no_transition :
    ∀ (providers : List PipaProvider) (now : Nat) (ctx : Ctx) (input : String),
    ctx.chatState = ChatState.main_menu →
    mmBranch1 input = false → mmBranch2 input = false → mmBranch3 input = false →
    mmBranch4 input = true →
    stepCtx providers now ctx input = ctx ∧
    stateWrites (processEffects providers now ctx input) = [] ∧
    botMsgs (processEffects providers now ctx input) = [ordersMenuMsg] ∧
    ordersMenuMsg.options.length = 2 := by
  rintro providers now ⟨st, sel, rep⟩ input h h1 h2 h3 h4
  obtain rfl : st = ChatState.main_menu := h
  refine ⟨?_, ?_, ?_, rfl⟩ <;>
    simp [stepCtx, processEffects, h1, h2, h3, h4, runEffs, applyEff, stateWrites, botMsgs]

/-- C8 witness: the theorem applied at input `"4"`. -/
theorem c8_orders_branch_no_transition_witness :
    stepCtx threeProviders 0 ⟨ChatState.main_menu, none, {}⟩ "4"
      = ⟨ChatState.main_menu, none, {}⟩ ∧
    stateWrites (processEffects threeProviders 0 ⟨ChatState.main_menu, none, {}⟩ "4") = [] ∧
    botMsgs (processEffects threeProviders 0 ⟨ChatState.main_menu, none, {}⟩ "4")
      = [ordersMenuMsg] ∧
    ordersMenuMsg.options.length = 2 :=
  c8_orders_branch_no_transition threeProviders 0
    ⟨ChatState.main_menu, none, {}⟩ "4" rfl rfl rfl rfl rfl

/-- C9: processing never raises to the caller — for every state and raw
input the effect list is defined, and the checked evaluator (which returns
`none` exactly where the TypeScript would dereference an out-of-bounds array
element, the only run-time failure points of `processUserInput`) always
succeeds with the same effects. -/
theorem c9_every_input_defined :
    ∀ (providers : List PipaProvider) (now : Nat) (ctx : Ctx) (input : String),
    processEffectsChecked providers now ctx input
      = some (processEffects providers now ctx input) := by
  rintro providers now ⟨st, sel, rep⟩ input
  cases st <;> try rfl
  all_goals
    simp only [processEffectsChecked, processEffects]
    (repeat' split) <;>
      first
        | rfl
        | (rename_i heq
           obtain ⟨hlt, rfl⟩ := List.get?_eq_some.mp heq
           rfl)
        | (rename_i heq
           rw [List.get?_eq_none] at heq
           (try simp only [reportTypes, durationOptions, List.length_cons,
              List.length_nil] at heq)
           omega)

/-- C10: in `report_affected` the recorded count is `parseInt(input) || 1`:
any nonzero parse (negative values included) is recorded as given, and a
`NaN` or zero parse records the sentinel 1. -/
theorem c10_affected_parse_or_default :
    ∀ (providers : List PipaProvider) (now : Nat) (ctx : Ctx) (input : String),
    ctx.chatState = ChatState.report_affected →
    (∀ n : Int, jsParseInt input = some n → n ≠ 0 →
        (stepCtx providers now ctx input).reportData.affected = some n) ∧
    ((jsParseInt input = none ∨ jsParseInt input = some 0) →
        (stepCtx providers now ctx input).reportData.affected = some 1) := by
  rintro providers now ⟨st, sel, rep⟩ input h
  obtain rfl : st = ChatState.report_affected := h
  constructor
  · intro n hp hn
    have hj : jsOrInt (some n) 1 = n := by
      rcases n with m | m
      · rcases m with _ | m
        · exact absurd rfl hn
        · rfl
      · rfl
    simp [stepCtx, processEffects, hp, hj, runEffs, applyEff]
  · intro hp
    rcases hp with hp | hp <;>
      simp [stepCtx, processEffects, hp, jsOrInt, runEffs, applyEff]

/-- C10 witness: the theorem applied at the numeric input `"0"`, whose parse
is the falsy 0, recording the sentinel 1. -/
theorem c10_affected_parse_or_default_witness :
    (stepCtx threeProviders 0 ⟨ChatState.report_affected, none, {}⟩ "0").reportData.affected
      = some 1 :=
  (c10_affected_parse_or_default threeProviders 0
      ⟨ChatState.report_affected, none, {}⟩ "0" rfl).2 (Or.inr rfl)

end AquaChat
